import Mathlib

/-!
Shallow embedding of the PS.Foodbook front-end (TypeScript) and proofs of the
spec's testable properties.

Covered source files:
* `src/lib/auth/session.ts` — JWT cookie session verification
* `src/i18n/config.ts` / `src/i18n/routing.ts` — locale set and localized route table
* `middleware.ts` — edge middleware (locale redirect, security headers)
* `src/lib/api/query-keys.ts` — TanStack Query key factories
* `src/lib/api/wordpress.ts` + `footer.tsx` — WordPress menu wrapper and footer fallback
* query-client configuration (retry / backoff policy)
* placeholder `fetchProducts`

JS `undefined`-able fields become `Option`; `async` functions returning a value
or `null` become total functions into `Option`; `try/catch` blocks become an
`Except` computation whose `catch` collapses errors to the documented fallback.
Machine integers stay `Int`/`Nat` (no arithmetic here comes near an overflow
boundary, the TS code uses IEEE doubles holding small integers).
-/

namespace Foodbook

/-! ## Session verification (`src/lib/auth/session.ts`) -/

/-- Claims carried by the session JWT (`SessionPayload` in `session.ts`).
`exp` is the registered JWT expiry claim, in seconds since the epoch;
the optional application claims are `name`, `role`, `permissions`. -/
structure SessionPayload where
  userId : Int
  email : String
  name : Option String
  role : Option String
  permissions : Option (List String)
  exp : Option Nat
  deriving Repr, DecidableEq

/-- Abstract view of the cookie's JWT string, as the `jose` library sees it:
whether it parses as a compact JWS at all (`wellFormed`), the `alg` of its
header, the key its signature actually verifies under (`secret` — for an HMAC
token this is the signing secret), and the decoded claims. -/
structure Token where
  wellFormed : Bool
  alg : String
  secret : String
  payload : SessionPayload
  deriving Repr, DecidableEq

/-- Expiry acceptance used by `jose`: a token passes the `exp` check when the
claim is absent or the current time (in whole seconds) is still before it. -/
def expValid (exp : Option Nat) (nowMs : Nat) : Bool :=
  match exp with
  | none => true
  | some e => nowMs / 1000 < e

/-- Model of `jose.jwtVerify(token, key, { algorithms: ['HS256'] })`: succeeds
exactly when the token is a well-formed compact JWS, its header algorithm is
`HS256`, its signature verifies under `key`, and its `exp` claim (if present)
is still in the future at one-second granularity; on success it yields the
decoded payload, on failure it throws (modelled as `none`). -/
def jwtVerify (t : Token) (key : String) (nowMs : Nat) : Option SessionPayload :=
  if t.wellFormed && t.alg == "HS256" && t.secret == key && expValid t.payload.exp nowMs
  then some t.payload
  else none

/-- `verifyToken` from `session.ts`: wraps `jwtVerify` in `try/catch`,
returning `null` on any verification failure. -/
def verifyToken (t : Token) (serverSecret : String) (nowMs : Nat) : Option SessionPayload :=
  jwtVerify t serverSecret nowMs

/-- The `user` part of the `Session` interface in `session.ts`. -/
structure SessionUser where
  id : Int
  email : String
  name : Option String
  role : Option String
  permissions : Option (List String)
  deriving Repr, DecidableEq

/-- The `Session` interface in `session.ts`; `expiresAtMs` is the `Date`
in milliseconds since the epoch. -/
structure Session where
  user : SessionUser
  expiresAtMs : Nat
  deriving Repr, DecidableEq

/-- `const JWT_SECRET = process.env.JWT_SECRET ?? 'your-secret-key'`. -/
def jwtSecretFrom (env : Option String) : String :=
  env.getD "your-secret-key"

/-- `getSession` from `session.ts`. The cookie jar is modelled as
`Option Token`: `none` covers both an absent `session` cookie and an empty
value (both falsy, both hitting the `if (!token) return null` branch).
After `verifyToken`, the code re-checks expiry with JS truthiness
(`payload.exp && payload.exp * 1000 < Date.now()`, skipped when `exp` is `0`)
and builds the session, spreading each optional claim only when present;
`expiresAt` is `new Date(payload.exp ? payload.exp * 1000 : Date.now())`. -/
def getSession (cookie : Option Token) (serverSecret : String) (nowMs : Nat) :
    Option Session :=
  match cookie with
  | none => none
  | some token =>
    match verifyToken token serverSecret nowMs with
    | none => none
    | some payload =>
      if (match payload.exp with
          | some e => e != 0 && decide (e * 1000 < nowMs)
          | none => false)
      then none
      else some
        { user :=
            { id := payload.userId
              email := payload.email
              name := payload.name
              role := payload.role
              permissions := payload.permissions }
          expiresAtMs :=
            match payload.exp with
            | some e => if e != 0 then e * 1000 else nowMs
            | none => nowMs }

/-- `isAuthenticated` from `session.ts`: `getSession() !== null`. -/
def isAuthenticated (cookie : Option Token) (serverSecret : String) (nowMs : Nat) :
    Bool :=
  getSession cookie serverSecret nowMs != none

/-- `hasRole` from `session.ts`: `false` without a session, otherwise the
strict comparison `session.user.role === role` (an absent `role` field is
`undefined`, never strictly equal to a string). -/
def hasRole (role : String) (cookie : Option Token) (serverSecret : String)
    (nowMs : Nat) : Bool :=
  match getSession cookie serverSecret nowMs with
  | none => false
  | some session => session.user.role == some role

/-- `hasPermission` from `session.ts`:
`session.user.permissions?.includes(permission) ?? false`. -/
def hasPermission (permission : String) (cookie : Option Token)
    (serverSecret : String) (nowMs : Nat) : Bool :=
  match getSession cookie serverSecret nowMs with
  | none => false
  | some session =>
    match session.user.permissions with
    | none => false
    | some ps => ps.contains permission

/-! ## Locale configuration (`src/i18n/config.ts`) -/

/-- The closed locale set `['nl', 'en', 'de', 'fr']`. -/
inductive Locale
  | nl
  | en
  | de
  | fr
  deriving Repr, DecidableEq

/-- The locale tags, in the order of the `locales` array. -/
def Locale.tag : Locale → String
  | .nl => "nl"
  | .en => "en"
  | .de => "de"
  | .fr => "fr"

/-- `locales` from `config.ts`, as the list of members of the closed set. -/
def locales : List Locale := [.nl, .en, .de, .fr]

/-- `defaultLocale` from `config.ts`. -/
def defaultLocale : Locale := .nl

/-- `isValidLocale` from `config.ts`: membership of a string in `locales`. -/
def isValidLocale (s : String) : Bool :=
  (locales.map Locale.tag).contains s

/-! ## Localized route table (`src/i18n/routing.ts`, `pathnames`) -/

/-- A `pathnames` entry value: either the same string for every locale or a
per-locale map (the route table only ever lists all four locales). -/
inductive PathnameEntry
  | invariant (s : String)
  | perLocale (nl en de fr : String)
  deriving Repr, DecidableEq

/-- Localize a `pathnames` entry under one locale. -/
def PathnameEntry.localize (e : PathnameEntry) (l : Locale) : String :=
  match e with
  | .invariant s => s
  | .perLocale nl en de fr =>
    match l with
    | .nl => nl
    | .en => en
    | .de => de
    | .fr => fr

/-- The `pathnames` table of `defineRouting` in `routing.ts`: abstract path
pattern on the left, localized form(s) on the right. -/
def pathnames : List (String × PathnameEntry) :=
  [ ("/", .invariant "/"),
    ("/product", .invariant "/product"),
    ("/product/[id]", .invariant "/product/[id]"),
    ("/brand/[id]", .perLocale "/merk/[id]" "/brand/[id]" "/marke/[id]" "/marque/[id]"),
    ("/blog", .invariant "/blog"),
    ("/blog/[slug]", .invariant "/blog/[slug]"),
    ("/contact", .perLocale "/contact" "/contact" "/kontakt" "/contact") ]

/-- Forward resolution: abstract pattern plus active locale to the concrete
localized path string, via the `pathnames` table. -/
def resolvePathname (abstract : String) (l : Locale) : Option String :=
  (pathnames.find? (fun p => p.1 == abstract)).map (fun p => p.2.localize l)

/-- Reverse resolution: concrete localized path string plus locale back to the
abstract pattern that produced it. -/
def matchPathname (concrete : String) (l : Locale) : Option String :=
  (pathnames.find? (fun p => p.2.localize l == concrete)).map (fun p => p.1)

/-! ## Edge middleware (`middleware.ts`)

`middleware.ts` delegates locale handling to `createMiddleware(routing)` from
`next-intl`, configured in `routing.ts` with `localePrefix: 'always'` and
`defaultLocale: 'nl'`. That library code is not part of this repository, so
its routing step is modelled from the spec (§4.5, §8): with `'always'`, a
request whose first path segment is a recognized locale passes through, and
any other request is redirected to the same path prefixed with the resolved
locale, which for a request carrying no locale preference signal falls back to
the default locale. Paths are modelled as their list of non-empty segments. -/

/-- Outcome of the middleware's i18n step for one request path. -/
inductive MiddlewareResult
  | pass (segments : List String)
  | redirect (segments : List String)
  deriving Repr, DecidableEq

/-- The path the browser ends up on, whichever branch was taken. -/
def MiddlewareResult.finalPath : MiddlewareResult → List String
  | .pass p => p
  | .redirect p => p

/-- Modelled from the spec: the `next-intl` middleware step configured by
`routing.ts` (`localePrefix: 'always'`, `defaultLocale: 'nl'`), for a request
without a locale cookie or `Accept-Language` preference, so that locale
detection falls back to the default locale. -/
def middleware (segments : List String) : MiddlewareResult :=
  match segments with
  | [] => .redirect [defaultLocale.tag]
  | seg :: _ =>
    if isValidLocale seg then .pass segments
    else .redirect (defaultLocale.tag :: segments)

/-! ## Query key factories (`src/lib/api/query-keys.ts`)

TanStack Query keys are JS arrays whose elements are strings, numbers or
plain parameter objects; `QueryKeyPart` is that element type, with parameter
objects kept abstract as association lists of string-valued entries. -/

/-- One element of a query key array. -/
inductive QueryKeyPart
  | str (s : String)
  | num (n : Int)
  | params (p : List (String × String))
  deriving Repr, DecidableEq

/-- The `number | string` id parameter of the `detail` factories. -/
inductive IdValue
  | ofNum (n : Int)
  | ofStr (s : String)
  deriving Repr, DecidableEq

/-- Embed an id into a key element, mirroring that a JS number and a JS string
are distinct array elements. -/
def IdValue.part : IdValue → QueryKeyPart
  | .ofNum n => .num n
  | .ofStr s => .str s

/-! `productKeys` from `query-keys.ts`. -/
namespace productKeys

def all : List QueryKeyPart := [.str "products"]

def lists : List QueryKeyPart := all ++ [.str "list"]

def list (params : List (String × String)) : List QueryKeyPart :=
  lists ++ [.params params]

def details : List QueryKeyPart := all ++ [.str "detail"]

def detail (id : IdValue) : List QueryKeyPart := details ++ [id.part]

def autocomplete (keyword : String) : List QueryKeyPart :=
  all ++ [.str "autocomplete", .str keyword]

end productKeys

/-! `brandKeys` from `query-keys.ts`. -/
namespace brandKeys

def all : List QueryKeyPart := [.str "brands"]

def lists : List QueryKeyPart := all ++ [.str "list"]

def list (params : List (String × String)) : List QueryKeyPart :=
  lists ++ [.params params]

def details : List QueryKeyPart := all ++ [.str "detail"]

def detail (id : IdValue) : List QueryKeyPart := details ++ [id.part]

def products (id : IdValue) : List QueryKeyPart := detail id ++ [.str "products"]

end brandKeys

/-! `blogKeys` from `query-keys.ts`. -/
namespace blogKeys

def all : List QueryKeyPart := [.str "blog"]

def lists : List QueryKeyPart := all ++ [.str "list"]

def list (params : List (String × String)) : List QueryKeyPart :=
  lists ++ [.params params]

def details : List QueryKeyPart := all ++ [.str "detail"]

def detail (slug : String) : List QueryKeyPart := details ++ [.str slug]

def categories : List QueryKeyPart := all ++ [.str "categories"]

def tags : List QueryKeyPart := all ++ [.str "tags"]

end blogKeys

/-! `wordpressKeys` from `query-keys.ts`. -/
namespace wordpressKeys

def all : List QueryKeyPart := [.str "wordpress"]

def pages : List QueryKeyPart := all ++ [.str "pages"]

def page (slug : String) : List QueryKeyPart := pages ++ [.str slug]

def menus : List QueryKeyPart := all ++ [.str "menus"]

def menu (slug : String) : List QueryKeyPart := menus ++ [.str slug]

end wordpressKeys

/-! `filterKeys` from `query-keys.ts`. -/
namespace filterKeys

def all : List QueryKeyPart := [.str "filters"]

def list : List QueryKeyPart := all ++ [.str "list"]

end filterKeys

/-! `authKeys` from `query-keys.ts`. -/
namespace authKeys

def all : List QueryKeyPart := [.str "auth"]

def session : List QueryKeyPart := all ++ [.str "session"]

def user : List QueryKeyPart := all ++ [.str "user"]

end authKeys

/-! ## WordPress menu wrapper (`src/lib/api/wordpress.ts`) and footer fallback -/

/-- A WordPress menu item (`WordPressMenuItem`), restricted to the fields the
footer consumes; the remaining fields are payload the wrapper passes through
untouched. -/
structure WordPressMenuItem where
  id : Int
  title : String
  url : String
  deriving Repr, DecidableEq

/-- A WordPress menu (`WordPressMenu`), restricted likewise. -/
structure WordPressMenu where
  id : Int
  name : String
  slug : String
  items : List WordPressMenuItem
  deriving Repr, DecidableEq

/-- What one `fetch` of the menu endpoint can come back as: a network-level
failure (the `fetch` promise rejects), or an HTTP response with a status code
and a body that either parses as a menu or does not (`response.json()`
throws). -/
inductive FetchOutcome
  | networkError
  | response (status : Nat) (body : Option WordPressMenu)
  deriving Repr, DecidableEq

/-- The `try` block of `getWordPressMenu`: `response.ok` is status 200–299;
on `!ok`, a 404 returns `null`, any other status throws a
`WordPress API error`; on `ok`, the parsed body is returned (a body that is
not a menu throws at `response.json()`). -/
def getWordPressMenuTry (o : FetchOutcome) : Except String (Option WordPressMenu) :=
  match o with
  | .networkError => .error "fetch failed"
  | .response status body =>
    if 200 ≤ status ∧ status < 300 then
      match body with
      | some menu => .ok (some menu)
      | none => .error "invalid JSON"
    else if status == 404 then .ok none
    else .error "WordPress API error"

/-- `getWordPressMenu` from `wordpress.ts`: the `try` block with its `catch`,
which logs and returns `null` on any thrown error. -/
def getWordPressMenu (o : FetchOutcome) : Option WordPressMenu :=
  match getWordPressMenuTry o with
  | .error _ => none
  | .ok v => v

/-- The footer's per-group items (`footer.tsx`):
`(await getWordPressMenu(group.slug))?.items ?? []`. -/
def footerMenuItems (o : FetchOutcome) : List WordPressMenuItem :=
  match getWordPressMenu o with
  | none => []
  | some menu => menu.items

/-! ## Query client retry policy (`makeQueryClient`) -/

/-- The error object the retry predicate inspects: `hasStatus` models
`error instanceof Error && 'status' in error`, and `status` the numeric
`status` property when it exists. -/
structure QueryError where
  hasStatus : Bool
  status : Int
  deriving Repr, DecidableEq

/-- The `retry` predicate of `makeQueryClient`: stop after 2 failures, never
retry a 4xx status, retry everything else (network errors, 5xx). -/
def retry (failureCount : Nat) (e : QueryError) : Bool :=
  if failureCount ≥ 2 then false
  else if e.hasStatus && (400 ≤ e.status && e.status < 500) then false
  else true

/-- The `retryDelay` of `makeQueryClient`:
`Math.min(1000 * 2 ** attemptIndex, 30000)`. -/
def retryDelay (attemptIndex : Nat) : Nat :=
  min (1000 * 2 ^ attemptIndex) 30000

/-! ## Placeholder product search (`useProducts` module, `fetchProducts`) -/

/-- `ProductSearchParams`: every field optional. Prices are in the model kept
as rationals (JS numbers holding exact decimal literals here). -/
structure ProductSearchParams where
  keyword : Option String := none
  page : Option Nat := none
  pageSize : Option Nat := none
  brands : Option (List Int) := none
  categories : Option (List Int) := none
  minPrice : Option ℚ := none
  maxPrice : Option ℚ := none
  inStock : Option Bool := none
  sortBy : Option String := none
  deriving Repr, DecidableEq

/-- `Product` (placeholder shape). -/
structure Product where
  id : Int
  name : String
  brand : String
  brandId : Int
  articleNumber : String
  description : String
  price : ℚ
  image : String
  inStock : Bool
  deriving Repr, DecidableEq

/-- `ProductSearchResponse` (placeholder shape). -/
structure ProductSearchResponse where
  products : List Product
  total : Nat
  page : Nat
  pageSize : Nat
  totalPages : Nat
  deriving Repr, DecidableEq

/-- `fetchProducts` from the products hook module: the placeholder
implementation returns two mock products and echoes `page` (default `0`) and
`pageSize` (default `21`) from the parameters, with `total = 2` and
`totalPages = 1`. -/
def fetchProducts (params : ProductSearchParams) : ProductSearchResponse :=
  { products :=
      [ { id := 1
          name := "Tomaten Cherry"
          brand := "Fresh & Easy"
          brandId := 101
          articleNumber := "TOM-001"
          description := "Verse cherry tomaten uit eigen kweek"
          price := (299 : ℚ) / 100
          image := "/placeholder-product.jpg"
          inStock := true },
        { id := 2
          name := "Komkommer"
          brand := "Green Valley"
          brandId := 102
          articleNumber := "KOM-001"
          description := "Verse komkommer"
          price := (149 : ℚ) / 100
          image := "/placeholder-product.jpg"
          inStock := true } ]
    total := 2
    page := params.page.getD 0
    pageSize := params.pageSize.getD 21
    totalPages := 1 }

/-! ## Helper lemmas -/

/-- Embedding ids into key elements is injective: a JS number and a JS string
are never the same array element. -/
lemma IdValue.part_inj (i j : IdValue) : i.part = j.part ↔ i = j := by
  cases i <;> cases j <;> simp [IdValue.part]

/-- `expValid` in terms of milliseconds: the token passes `jose`'s expiry
check exactly when the expiry instant is strictly later than the current
millisecond, measured at one-second granularity. -/
lemma expValid_some_iff (e nowMs : Nat) :
    expValid (some e) nowMs = true ↔ nowMs < e * 1000 := by
  simp [expValid, Nat.div_lt_iff_lt_mul (by norm_num : (0:ℕ) < 1000)]

/-! ## Claim theorems -/

/-- C4: for every locale in `{nl, en, de, fr}` and every abstract pattern in
the route table, forward resolution yields a concrete localized path, reverse
resolution of that path under the same locale returns the original pattern,
and within any single locale no two distinct patterns share a localized
string. -/
theorem routing_pathnames_roundtrip_and_unambiguous :
    (locales.all fun l => pathnames.all fun p =>
        ((resolvePathname p.1 l == some (p.2.localize l)) &&
         (matchPathname (p.2.localize l) l == some p.1))) = true ∧
    (locales.all fun l => pathnames.all fun p => pathnames.all fun q =>
        ((p.1 == q.1) || (p.2.localize l != q.2.localize l))) = true := by
  constructor <;> decide

/-- C8: the query-client retry predicate accepts exactly the first two
failures of a request whose error does not carry a 4xx status, so a 4xx error
is never retried and anything else is retried at most twice; the backoff
before attempt `i` is `min(1000 * 2^i, 30000)` milliseconds. -/
theorem retry_policy_bounded_backoff (n : Nat) (e : QueryError) (i : Nat) :
    (retry n e = true ↔
      n < 2 ∧ (e.hasStatus = false ∨ e.status < 400 ∨ 500 ≤ e.status)) ∧
    retryDelay i = min (1000 * 2 ^ i) 30000 := by
  refine ⟨?_, rfl⟩
  unfold retry
  rcases e with ⟨hs, st⟩
  cases hs <;> simp

/-- C9: the placeholder product search echoes `page = 0` and `pageSize = 21`
(also used as defaults when the parameters are omitted), and its `totalPages`
equals the ceiling of `total / pageSize` clamped to at least 1. -/
theorem fetchProducts_echoes_paging :
    (fetchProducts { page := some 0, pageSize := some 21 }).page = 0 ∧
    (fetchProducts { page := some 0, pageSize := some 21 }).pageSize = 21 ∧
    (fetchProducts { page := some 0, pageSize := some 21 }).totalPages =
      max 1 (((fetchProducts { page := some 0, pageSize := some 21 }).total +
              (fetchProducts { page := some 0, pageSize := some 21 }).pageSize - 1) /
             (fetchProducts { page := some 0, pageSize := some 21 }).pageSize) ∧
    (fetchProducts {}).page = 0 ∧
    (fetchProducts {}).pageSize = 21 := by
  refine ⟨rfl, rfl, ?_, rfl, rfl⟩
  decide

/-- C5: a request path whose first segment is not a recognized locale is
redirected to the same path prefixed with the default locale `nl`, and
whatever the middleware produces (pass or redirect), the final path always
starts with a recognized locale segment. -/
theorem middleware_prefixes_default_locale (seg : String) (rest : List String)
    (h : isValidLocale seg = false) :
    middleware (seg :: rest) = .redirect (defaultLocale.tag :: seg :: rest) ∧
    ∀ segments : List String,
      ((middleware segments).finalPath.head?.any isValidLocale) = true := by
  constructor
  · simp [middleware, h]
  · intro segments
    cases segments with
    | nil => decide
    | cons s ss =>
      by_cases hv : isValidLocale s = true
      · simp [middleware, hv, MiddlewareResult.finalPath]
      · simp only [Bool.not_eq_true] at hv
        simp [middleware, hv, MiddlewareResult.finalPath]
        decide

/-- Witness for C5 at the concrete path `/product/5`, whose first segment is
not a locale. -/
theorem middleware_prefixes_default_locale_witness :
    middleware ["product", "5"] = .redirect (defaultLocale.tag :: ["product", "5"]) ∧
    ∀ segments : List String,
      ((middleware segments).finalPath.head?.any isValidLocale) = true :=
  middleware_prefixes_default_locale "product" ["5"] (by decide)

/-- C6: each query-key factory is deterministic and injective in its
parameters (structurally equal parameters give equal keys, different
parameters give different keys), and every key a factory family produces
starts with that entity's prefix element (`products`, `brands`, `blog`,
`wordpress`, `filters`, `auth`). -/
theorem query_key_factories_injective_and_prefixed
    (p q : List (String × String)) (i j : IdValue) (k₁ k₂ : String) :
    (productKeys.list p = productKeys.list q ↔ p = q) ∧
    (productKeys.detail i = productKeys.detail j ↔ i = j) ∧
    (productKeys.autocomplete k₁ = productKeys.autocomplete k₂ ↔ k₁ = k₂) ∧
    (brandKeys.list p = brandKeys.list q ↔ p = q) ∧
    (brandKeys.detail i = brandKeys.detail j ↔ i = j) ∧
    (brandKeys.products i = brandKeys.products j ↔ i = j) ∧
    (blogKeys.list p = blogKeys.list q ↔ p = q) ∧
    (blogKeys.detail k₁ = blogKeys.detail k₂ ↔ k₁ = k₂) ∧
    (wordpressKeys.page k₁ = wordpressKeys.page k₂ ↔ k₁ = k₂) ∧
    (wordpressKeys.menu k₁ = wordpressKeys.menu k₂ ↔ k₁ = k₂) ∧
    (productKeys.all.head? = some (.str "products") ∧
     (productKeys.list p).head? = some (.str "products") ∧
     (productKeys.detail i).head? = some (.str "products") ∧
     (productKeys.autocomplete k₁).head? = some (.str "products")) ∧
    (brandKeys.all.head? = some (.str "brands") ∧
     (brandKeys.list p).head? = some (.str "brands") ∧
     (brandKeys.detail i).head? = some (.str "brands") ∧
     (brandKeys.products i).head? = some (.str "brands")) ∧
    (blogKeys.all.head? = some (.str "blog") ∧
     (blogKeys.list p).head? = some (.str "blog") ∧
     (blogKeys.detail k₁).head? = some (.str "blog") ∧
     blogKeys.categories.head? = some (.str "blog") ∧
     blogKeys.tags.head? = some (.str "blog")) ∧
    (wordpressKeys.all.head? = some (.str "wordpress") ∧
     (wordpressKeys.page k₁).head? = some (.str "wordpress") ∧
     (wordpressKeys.menu k₁).head? = some (.str "wordpress")) ∧
    (filterKeys.all.head? = some (.str "filters") ∧
     filterKeys.list.head? = some (.str "filters")) ∧
    (authKeys.all.head? = some (.str "auth") ∧
     authKeys.session.head? = some (.str "auth") ∧
     authKeys.user.head? = some (.str "auth")) := by
  simp [productKeys.list, productKeys.lists, productKeys.all, productKeys.detail,
    productKeys.details, productKeys.autocomplete,
    brandKeys.list, brandKeys.lists, brandKeys.all, brandKeys.detail,
    brandKeys.details, brandKeys.products,
    blogKeys.list, blogKeys.lists, blogKeys.all, blogKeys.detail,
    blogKeys.details, blogKeys.categories, blogKeys.tags,
    wordpressKeys.all, wordpressKeys.pages, wordpressKeys.page,
    wordpressKeys.menus, wordpressKeys.menu,
    filterKeys.all, filterKeys.list,
    authKeys.all, authKeys.session, authKeys.user,
    IdValue.part_inj]

/-- C7: a 404 from the WordPress menu endpoint makes `getWordPressMenu`
return `null` without throwing, the footer then renders that menu group with
an empty items list, and more generally every non-2xx response (and even a
network failure) collapses to `null` in the caller, never a thrown error. -/
theorem wordpress_menu_404_yields_empty (status : Nat) (body : Option WordPressMenu)
    (h : status < 200 ∨ 300 ≤ status) :
    getWordPressMenu (.response 404 body) = none ∧
    footerMenuItems (.response 404 body) = [] ∧
    getWordPressMenu (.response status body) = none ∧
    footerMenuItems (.response status body) = [] ∧
    getWordPressMenu .networkError = none ∧
    footerMenuItems .networkError = [] := by
  have h404 : getWordPressMenu (.response 404 body) = none := by
    simp [getWordPressMenu, getWordPressMenuTry]
  have hbad : getWordPressMenu (.response status body) = none := by
    have hok : ¬(200 ≤ status ∧ status < 300) := by omega
    by_cases h4 : status == 404
    · simp [getWordPressMenu, getWordPressMenuTry, hok, h4]
    · simp [getWordPressMenu, getWordPressMenuTry, hok, h4]
  exact ⟨h404, by simp [footerMenuItems, h404], hbad,
    by simp [footerMenuItems, hbad], rfl, rfl⟩

/-- Witness for C7 at a concrete 500 response with an unparseable body. -/
theorem wordpress_menu_404_yields_empty_witness :
    getWordPressMenu (.response 404 none) = none ∧
    footerMenuItems (.response 404 none) = [] ∧
    getWordPressMenu (.response 500 none) = none ∧
    footerMenuItems (.response 500 none) = [] ∧
    getWordPressMenu .networkError = none ∧
    footerMenuItems .networkError = [] :=
  wordpress_menu_404_yields_empty 500 none (by decide)

/-- `expValid` fails exactly on a present expiry claim that is not in the
future at one-second granularity. -/
lemma expValid_eq_false_iff (exp : Option Nat) (nowMs : Nat) :
    expValid exp nowMs = false ↔ ∃ e, exp = some e ∧ e ≤ nowMs / 1000 := by
  cases exp with
  | none => simp [expValid]
  | some e => simp [expValid, Nat.not_lt]

/-- For a present cookie, `getSession` is `null` exactly when `jose`'s
verification predicate fails; the code's own millisecond expiry re-check can
never fire on a token `jose` accepted. -/
lemma getSession_some_eq_none_iff (t : Token) (secret : String) (nowMs : Nat) :
    getSession (some t) secret nowMs = none ↔
      (t.wellFormed && t.alg == "HS256" && t.secret == secret &&
        expValid t.payload.exp nowMs) = false := by
  unfold getSession verifyToken jwtVerify
  by_cases hc : (t.wellFormed && t.alg == "HS256" && t.secret == secret &&
      expValid t.payload.exp nowMs) = true
  · have hc' := hc
    simp only [Bool.and_eq_true, beq_iff_eq] at hc'
    obtain ⟨⟨⟨hw, ha⟩, hs⟩, hv⟩ := hc'
    cases hE : t.payload.exp with
    | none => simp [hE, hw, ha, hs, expValid]
    | some e =>
      rw [hE] at hv
      have hm : nowMs < e * 1000 := (expValid_some_iff e nowMs).mp hv
      have hnl : ¬ (e * 1000 < nowMs) := by omega
      simp [hE, hw, ha, hs, hv, hnl]
  · simp only [Bool.not_eq_true] at hc
    simp [hc]

/-- C1: `getSession` returns `null` exactly when the cookie is absent, the
token is not a well-formed JWS, its algorithm is not the fixed `HS256`, its
signature does not verify under the server secret, or its expiry claim is not
in the future (at the one-second granularity the expiry check uses,
`e ≤ now/1000`); in every other case it returns a session, and being a total
function into `Option Session` it never throws. -/
theorem getSession_null_exactly_on_failures (cookie : Option Token)
    (secret : String) (nowMs : Nat) :
    getSession cookie secret nowMs = none ↔
      cookie = none ∨ ∃ t, cookie = some t ∧
        (t.wellFormed = false ∨ t.alg ≠ "HS256" ∨ t.secret ≠ secret ∨
          ∃ e, t.payload.exp = some e ∧ e ≤ nowMs / 1000) := by
  cases cookie with
  | none => simp [getSession]
  | some t =>
    rw [getSession_some_eq_none_iff]
    constructor
    · intro hf
      refine Or.inr ⟨t, rfl, ?_⟩
      by_contra hcon
      push_neg at hcon
      obtain ⟨hw, ha, hs, hexp⟩ := hcon
      have hw' : t.wellFormed = true := by
        revert hw
        cases t.wellFormed <;> simp
      have hv : expValid t.payload.exp nowMs = true := by
        cases hE : t.payload.exp with
        | none => simp [expValid]
        | some e =>
          rw [expValid_some_iff]
          have := hexp e hE
          omega
      simp [hw', ha, hs, hv] at hf
    · rintro (hnone | ⟨t', ht', hcases⟩)
      · exact absurd hnone (by simp)
      · injection ht' with h
        subst h
        rcases hcases with hw | ha | hs | ⟨e, hE, hle⟩
        · simp [hw]
        · simp [beq_eq_false_iff_ne.mpr ha]
        · simp [beq_eq_false_iff_ne.mpr hs]
        · have hv : expValid t.payload.exp nowMs = false := by
            rw [expValid_eq_false_iff]
            exact ⟨e, hE, hle⟩
          simp [hv]

/-- C2: for a well-formed token signed with the server secret under `HS256`
and not expired, `getSession` returns the session whose `user.id` and
`user.email` are the token's `userId` and `email` claims and whose optional
fields `name`, `role`, `permissions` are exactly the token's optional claims
(present in the session if and only if present in the payload); `expiresAt`
is the expiry claim in milliseconds. -/
theorem getSession_populates_from_claims (t : Token) (secret : String)
    (nowMs : Nat) (hw : t.wellFormed = true) (ha : t.alg = "HS256")
    (hs : t.secret = secret) (hv : expValid t.payload.exp nowMs = true) :
    getSession (some t) secret nowMs = some
      { user :=
          { id := t.payload.userId
            email := t.payload.email
            name := t.payload.name
            role := t.payload.role
            permissions := t.payload.permissions }
        expiresAtMs :=
          match t.payload.exp with
          | some e => e * 1000
          | none => nowMs } := by
  unfold getSession verifyToken jwtVerify
  cases hE : t.payload.exp with
  | none => simp [hE, hw, ha, hs, expValid]
  | some e =>
    rw [hE] at hv
    have hm : nowMs < e * 1000 := (expValid_some_iff e nowMs).mp hv
    have he0 : e ≠ 0 := by omega
    have hnl : ¬ (e * 1000 < nowMs) := by omega
    simp [hE, hw, ha, hs, hv, he0, hnl]

/-- Witness for C2: a concrete well-signed, unexpired token whose optional
`name` and `role` claims are present and whose `permissions` claim is absent
maps to exactly that session. -/
theorem getSession_populates_from_claims_witness :
    getSession
      (some { wellFormed := true, alg := "HS256", secret := "s3cret",
              payload := { userId := 7, email := "ann@example.com",
                           name := some "Ann", role := some "admin",
                           permissions := none, exp := some 2000000000 } })
      "s3cret" 1700000000000 = some
      { user := { id := 7, email := "ann@example.com", name := some "Ann",
                  role := some "admin", permissions := none }
        expiresAtMs := 2000000000000 } := by
  have h := getSession_populates_from_claims
    { wellFormed := true, alg := "HS256", secret := "s3cret",
      payload := { userId := 7, email := "ann@example.com",
                   name := some "Ann", role := some "admin",
                   permissions := none, exp := some 2000000000 } }
    "s3cret" 1700000000000 rfl rfl rfl (by decide)
  simpa using h

/-- C3: `hasRole r` is `false` when there is no session (here: no cookie, so
`getSession` is `null`), and in general it is `true` exactly when
`getSession` yields a session whose `user.role` field is present and equal to
`r`; it tests nothing else. -/
theorem hasRole_iff_session_role (role : String) (cookie : Option Token)
    (secret : String) (nowMs : Nat) :
    hasRole role none secret nowMs = false ∧
    (hasRole role cookie secret nowMs = true ↔
      ∃ s, getSession cookie secret nowMs = some s ∧ s.user.role = some role) := by
  refine ⟨rfl, ?_⟩
  unfold hasRole
  cases h : getSession cookie secret nowMs with
  | none => simp
  | some s => simp [h]

/-- C10: with the `JWT_SECRET` environment variable unset, the secret falls
back to the literal `'your-secret-key'`, `verifyToken` accepts a token
exactly when it verifies under `HS256` against that literal, and a token
forged with the publicly-known default secret produces a valid session —
concretely, an admin role check succeeds for it. -/
theorem default_secret_fallback_accepts_forged (t : Token) (nowMs : Nat) :
    jwtSecretFrom none = "your-secret-key" ∧
    ((verifyToken t (jwtSecretFrom none) nowMs).isSome =
      (t.wellFormed && t.alg == "HS256" && t.secret == "your-secret-key" &&
        expValid t.payload.exp nowMs)) ∧
    hasRole "admin"
      (some { wellFormed := true, alg := "HS256", secret := "your-secret-key",
              payload := { userId := 1, email := "attacker@example.com",
                           name := none, role := some "admin",
                           permissions := none, exp := some 1 } })
      (jwtSecretFrom none) 0 = true := by
  refine ⟨rfl, ?_, by decide⟩
  unfold verifyToken jwtVerify jwtSecretFrom
  split <;> simp_all

end Foodbook
